import Mathlib

/-
Verification of the InLink-Prospector background job orchestrator
(src/job_manager.py, with the progress loop of src/analyzer.py).

Modelling conventions (shallow embedding):
* Timestamps (datetime.now().isoformat()) are an abstract Nat clock held in
  the system state; every write of a record stamps updated_at with the
  current clock and advances it.
* A job's JSON file is modelled by its parse outcome: `JsonFile.valid r`
  when json.load would succeed and yield the record r, `JsonFile.corrupt s`
  when the text s is empty/truncated/unparseable and json.load would raise
  json.JSONDecodeError.
* A job's results CSV file is modelled by `CsvFile`: `emptyFile` is the
  zero-column file that pandas to_csv produces for an empty DataFrame (and
  which pd.read_csv refuses with EmptyDataError), `table rows` is a file
  with a header and the given rows.
* The worker thread started by start_background_job is modelled by the
  function run_job, evaluated over executions in which no concurrent
  control operation is interleaved; its externally observable effects
  (record writes, checkpoint writes, the arguments passed to the external
  progress callback, and the value handed to the completion callback) are
  returned explicitly.  The busy-wait the source performs while the stored
  status is PAUSED never exits when no concurrent writer changes the
  record, so it is modelled by the distinguished outcome `hang`.
* The analysis collaborator (LinkAnalyzer._analyze_page) is an opaque
  function from a page to a list of suggestion rows or a raised error.
-/

namespace JobMgr

/-- Job status enumeration (src/job_manager.py, class JobStatus). -/
inductive JobStatus
  | queued
  | running
  | paused
  | completed
  | failed
  | stopped
deriving DecidableEq

/-- One suggestion row as produced by the analysis step: the dict with keys
Source URL, Anchor Text, Target URL and optional Entity Match
(src/analyzer.py 315-323). -/
structure Row where
  source_url : String
  anchor_text : String
  target_url : String
  entity_match : Option String := none
deriving DecidableEq

/-- The caller-supplied config blob.  The orchestrator reads only
max_suggestions_per_page from it (src/job_manager.py 182: config.get with
default 5); everything else is carried through opaquely. -/
structure Config where
  max_suggestions_per_page : Option Nat := none
deriving DecidableEq

/-- The job_data dictionary (src/job_manager.py 52-62). -/
structure JobRecord where
  job_id : String
  status : JobStatus
  total_pages : Nat
  current_page : Nat
  created_at : Nat
  updated_at : Nat
  config : Config
  partial_results : List Row
  error : Option String
deriving DecidableEq

/-- The content of a job's JSON file, by its parse outcome: `valid r` when
json.load succeeds and yields r, `corrupt raw` when the text raw (empty,
truncated, or otherwise unparseable) makes json.load raise. -/
inductive JsonFile
  | valid (r : JobRecord)
  | corrupt (raw : String)
deriving DecidableEq

/-- The jobs directory, as a map from job_id to the job's JSON file when
jobs/<id>.json exists. -/
abbrev JobStore := String → Option JsonFile

/-- JobManager.get_job (src/job_manager.py 67-82): None when the file does
not exist, otherwise json.load, which raises on an unparseable file. -/
def get_job (fs : JobStore) (job_id : String) : Except String (Option JobRecord) :=
  match fs job_id with
  | none => Except.ok none
  | some (JsonFile.valid r) => Except.ok (some r)
  | some (JsonFile.corrupt _) => Except.error "JSONDecodeError"

/-- The jobs directory midway through JobManager._save_job
(src/job_manager.py 341-343): open(job_file, "w") has truncated the
destination file in place and json.dump has not yet written.  The source
uses no temporary file and no rename, so this torn state is visible to a
concurrent reader. -/
def save_job_truncated (fs : JobStore) (job_id : String) : JobStore :=
  fun k => if k = job_id then some (JsonFile.corrupt "") else fs k

/-- JobManager._save_job after it returns (src/job_manager.py 333-343). -/
def save_job (fs : JobStore) (job_id : String) (r : JobRecord) : JobStore :=
  fun k => if k = job_id then some (JsonFile.valid r) else fs k

/-- The content of a job's results CSV file.  `emptyFile` is what to_csv
writes for a DataFrame with no columns; pd.read_csv raises EmptyDataError
on it.  `table rows` is a file with a header line and the given rows. -/
inductive CsvFile
  | emptyFile
  | table (rows : List Row)
deriving DecidableEq

/-- results_df.to_csv: an empty row list gives a DataFrame with no columns,
hence the zero-column file; otherwise a header plus the rows. -/
def toCsv (rows : List Row) : CsvFile :=
  match rows with
  | [] => CsvFile.emptyFile
  | _ => CsvFile.table rows

/-- pd.read_csv on a results file: raises EmptyDataError on a zero-column
file, otherwise yields the rows. -/
def readCsv : CsvFile → Except String (List Row)
  | CsvFile.emptyFile => Except.error "EmptyDataError"
  | CsvFile.table rows => Except.ok rows

/-- The results files of the jobs directory, keyed by job_id
(jobs/<id>_results.csv). -/
abbrev ResStore := String → Option CsvFile

/-- JobManager.save_partial_results (src/job_manager.py 132-141):
results_df.to_csv overwrites the job's results file wholesale. -/
def save_partial_results (rs : ResStore) (job_id : String) (rows : List Row) : ResStore :=
  fun k => if k = job_id then some (toCsv rows) else rs k

/-- JobManager.load_partial_results (src/job_manager.py 143-156): None when
the file does not exist, otherwise pd.read_csv (which raises on a
zero-column file). -/
def load_partial_results (rs : ResStore) (job_id : String) : Except String (Option (List Row)) :=
  match rs job_id with
  | none => Except.ok none
  | some f =>
    match readCsv f with
    | Except.error e => Except.error e
    | Except.ok rows => Except.ok (some rows)

/-- The persistent state: the job files, the results files, and the clock
that stamps updated_at. -/
structure Sys where
  jobs : JobStore
  results : ResStore
  clock : Nat

/-- The updates dictionary passed to JobManager.update_job: the fields the
orchestrator ever puts in it (status, current_page, error). -/
structure Updates where
  status : Option JobStatus := none
  current_page : Option Nat := none
  error : Option (Option String) := none

/-- job_data.update(updates) followed by the updated_at refresh
(src/job_manager.py 94-95). -/
def JobRecord.applyUpdates (j : JobRecord) (u : Updates) (now : Nat) : JobRecord :=
  { j with
    status := u.status.getD j.status,
    current_page := u.current_page.getD j.current_page,
    error := u.error.getD j.error,
    updated_at := now }

/-- JobManager.update_job (src/job_manager.py 84-96): read, merge the
updates, stamp updated_at, save; a missing record makes it a no-op, a
corrupt record makes get_job raise through it. -/
def update_job (s : Sys) (job_id : String) (u : Updates) : Except String Sys :=
  match get_job s.jobs job_id with
  | Except.error e => Except.error e
  | Except.ok none => Except.ok s
  | Except.ok (some j) =>
      Except.ok { s with jobs := save_job s.jobs job_id (j.applyUpdates u s.clock),
                         clock := s.clock + 1 }

/-- The job_data dictionary that create_job builds (src/job_manager.py
52-62). -/
def freshRecord (job_id : String) (total_pages : Nat) (config : Config) (now : Nat) : JobRecord :=
  { job_id := job_id, status := JobStatus.queued, total_pages := total_pages,
    current_page := 0, created_at := now, updated_at := now,
    config := config, partial_results := [], error := none }

/-- JobManager.create_job (src/job_manager.py 40-65): writes a fresh QUEUED
record via _save_job, overwriting any record already stored under the id;
it does not touch the results file. -/
def create_job (s : Sys) (job_id : String) (total_pages : Nat) (config : Config) : Sys :=
  { s with jobs := save_job s.jobs job_id (freshRecord job_id total_pages config s.clock),
           clock := s.clock + 1 }

/-- JobManager.delete_job (src/job_manager.py 117-130): removes the job
file and the results file, each only if present. -/
def delete_job (s : Sys) (job_id : String) : Sys :=
  { s with jobs := fun k => if k = job_id then none else s.jobs k,
           results := fun k => if k = job_id then none else s.results k }

/-- The status a reader of the store sees for a job, when its record is
present and parseable. -/
def statusOf (s : Sys) (job_id : String) : Option JobStatus :=
  match s.jobs job_id with
  | some (JsonFile.valid r) => some r.status
  | _ => none

/-- The system after update_job wrote only a new status for the record j
stored under job_id: the record changes in status and updated_at alone. -/
def setStatus (s : Sys) (job_id : String) (j : JobRecord) (st : JobStatus) : Sys :=
  { s with jobs := save_job s.jobs job_id { j with status := st, updated_at := s.clock },
           clock := s.clock + 1 }

/-- The system after the worker's except-block recorded a failure for the
record j: status FAILED, the error string stored, updated_at stamped. -/
def setFailed (s : Sys) (job_id : String) (j : JobRecord) (msg : String) : Sys :=
  { s with jobs := save_job s.jobs job_id
             { j with status := JobStatus.failed, error := some msg, updated_at := s.clock },
           clock := s.clock + 1 }

/-- JobManager.pause_job (src/job_manager.py 276-285): only effective when
the stored status is RUNNING. -/
def pause_job (s : Sys) (job_id : String) : Except String Sys :=
  match get_job s.jobs job_id with
  | Except.error e => Except.error e
  | Except.ok none => Except.ok s
  | Except.ok (some j) =>
      if j.status = JobStatus.running then update_job s job_id { status := some JobStatus.paused }
      else Except.ok s

/-- JobManager.stop_job (src/job_manager.py 308-317): effective from
RUNNING or PAUSED. -/
def stop_job (s : Sys) (job_id : String) : Except String Sys :=
  match get_job s.jobs job_id with
  | Except.error e => Except.error e
  | Except.ok none => Except.ok s
  | Except.ok (some j) =>
      if j.status = JobStatus.running ∨ j.status = JobStatus.paused then
        update_job s job_id { status := some JobStatus.stopped }
      else Except.ok s

/-- The synchronous record transition of JobManager.resume_job
(src/job_manager.py 300-303): set the PAUSED record to RUNNING.  The worker
relaunch it then performs (line 306) is run_job, modelled below. -/
def resume_mark (s : Sys) (job_id : String) : Except String Sys :=
  match get_job s.jobs job_id with
  | Except.error e => Except.error e
  | Except.ok none => Except.ok s
  | Except.ok (some j) =>
      if j.status = JobStatus.paused then update_job s job_id { status := some JobStatus.running }
      else Except.ok s

/-- A page of the input DataFrame, identified by its position in the
original frame (pandas keeps the original index labels under iloc
slicing, so iterrows yields these labels for the resumed tail too). -/
abbrev Page := Nat

/-- run_job's first write after reading the record (src/job_manager.py
178): status := RUNNING, whatever the record's current status is. -/
def markRunning (s : Sys) (job_id : String) : Except String Sys :=
  update_job s job_id { status := some JobStatus.running }

/-- run_job's progress callback update_progress (src/job_manager.py
203-212): unconditionally writes current_page and status RUNNING, then
invokes the external progress callback with (current, total); the pair
returned alongside the state is the argument of that external call. -/
def update_progress (s : Sys) (job_id : String) (current total : Nat) :
    Except String (Sys × Nat × Nat) :=
  match update_job s job_id { status := some JobStatus.running,
                              current_page := some current } with
  | Except.error e => Except.error e
  | Except.ok s2 => Except.ok (s2, current, total)

/-- run_job's initialisation of all_suggestions (src/job_manager.py
185-189): the loaded results when the file exists and holds at least one
row, the empty list otherwise; a zero-column results file makes
load_partial_results raise through it. -/
def initAllSuggestions (s : Sys) (job_id : String) : Except String (List Row) :=
  match load_partial_results s.results job_id with
  | Except.error e => Except.error e
  | Except.ok none => Except.ok []
  | Except.ok (some rows) => Except.ok (if rows.length > 0 then rows else [])

/-- Outcome of the page loop of generate_link_suggestions
(src/analyzer.py 153-199) as driven by run_job's callbacks: `done` when
the loop ran out of pages or broke on the stop check, `exn` when an
exception left the loop (carrying the state at the raise), `hang` when the
stored status was PAUSED at a check — the source then busy-waits re-polling
the record, which never exits while no concurrent writer changes it. -/
inductive LoopOut
  | done (s : Sys) (allSuggestions : List Row) (pageRows : List Row) (calls : List (Nat × Nat))
  | exn (s : Sys) (msg : String) (calls : List (Nat × Nat))
  | hang (s : Sys) (calls : List (Nat × Nat))

/-- One pass of the per-page loop: the status check of check_status
(src/job_manager.py 192-200: a vanished record counts as stop), then the
wrapped _analyze_page (src/job_manager.py 217-226: extend all_suggestions,
checkpoint them when nonempty), the extension of the local suggestions
list (src/analyzer.py 192), and update_progress (src/analyzer.py 195-196).
`idx` is the page's original index label, `total` is len(df_to_process). -/
def procPages (job_id : String) (maxSug : Nat)
    (analyze : Nat → Page → Except String (List Row)) (total : Nat) :
    List Page → Nat → Sys → List Row → List Row → List (Nat × Nat) → LoopOut
  | [], _, s, allSug, sug, calls => LoopOut.done s allSug sug calls
  | p :: rest, idx, s, allSug, sug, calls =>
    match get_job s.jobs job_id with
    | Except.error msg => LoopOut.exn s msg calls
    | Except.ok none => LoopOut.done s allSug sug calls
    | Except.ok (some cur) =>
      if cur.status = JobStatus.stopped then LoopOut.done s allSug sug calls
      else if cur.status = JobStatus.paused then LoopOut.hang s calls
      else
        match analyze maxSug p with
        | Except.error msg => LoopOut.exn s msg calls
        | Except.ok result =>
          let allSug2 := allSug ++ result
          let s1 := if allSug2.length > 0
                    then { s with results := save_partial_results s.results job_id allSug2 }
                    else s
          let sug2 := sug ++ result
          match update_progress s1 job_id (idx + 1) total with
          | Except.error msg => LoopOut.exn s1 msg calls
          | Except.ok (s2, c, t) =>
            procPages job_id maxSug analyze total rest (idx + 1) s2 allSug2 sug2 (calls ++ [(c, t)])

/-- Outcome of one worker execution (the thread body run_job,
src/job_manager.py 171-269): `noJob` when the record was absent at entry,
`hang` when the loop blocked on PAUSED, `finished s calls sug` when the
thread exited cleanly (sug is what was handed to the completion callback:
the run's suggestions, or none on the failure path), `crashed` when an
exception raised inside the except block itself escaped the thread. -/
inductive RunOut
  | noJob (s : Sys)
  | hang (s : Sys) (calls : List (Nat × Nat))
  | finished (s : Sys) (calls : List (Nat × Nat)) (sug : Option (List Row))
  | crashed (s : Sys) (calls : List (Nat × Nat)) (msg : String)

/-- run_job's except block (src/job_manager.py 261-269): record status
FAILED and the error string, then call the completion callback with None.
When that update itself raises (e.g. the record file is corrupt), the
exception escapes the thread: `crashed`. -/
def failWith (s : Sys) (job_id : String) (msg : String) (calls : List (Nat × Nat)) : RunOut :=
  match update_job s job_id { status := some JobStatus.failed, error := some (some msg) } with
  | Except.ok s2 => RunOut.finished s2 calls none
  | Except.error m2 => RunOut.crashed s calls m2

/-- run_job's completion branch (src/job_manager.py 249-255): save the
suggestions generate_link_suggestions returned — note these are only the
rows collected by this run's loop — then set COMPLETED with current_page =
len(df). -/
def completeJob (s : Sys) (job_id : String) (n : Nat) (sug : List Row)
    (calls : List (Nat × Nat)) : RunOut :=
  let s1 := { s with results := save_partial_results s.results job_id sug }
  match update_job s1 job_id { status := some JobStatus.completed, current_page := some n } with
  | Except.error msg => failWith s1 job_id msg calls
  | Except.ok s2 => RunOut.finished s2 calls (some sug)

/-- The worker thread body run_job (src/job_manager.py 171-269): read the
record, set RUNNING, load existing partial results, process the remaining
pages df.iloc[start_page:] through generate_link_suggestions, then the
final status check: re-affirm STOPPED, or save the run's suggestions and
set COMPLETED.  Any exception inside the try lands in failWith. -/
def run_job (s0 : Sys) (job_id : String) (df : List Page)
    (analyze : Nat → Page → Except String (List Row)) : RunOut :=
  match get_job s0.jobs job_id with
  | Except.error msg => failWith s0 job_id msg []
  | Except.ok none => RunOut.noJob s0
  | Except.ok (some job) =>
    match markRunning s0 job_id with
    | Except.error msg => failWith s0 job_id msg []
    | Except.ok s1 =>
      match initAllSuggestions s1 job_id with
      | Except.error msg => failWith s1 job_id msg []
      | Except.ok all0 =>
        let maxSug := job.config.max_suggestions_per_page.getD 5
        let startPage := job.current_page
        let pages := df.drop startPage
        match procPages job_id maxSug analyze pages.length pages startPage s1 all0 [] [] with
        | LoopOut.hang s calls => RunOut.hang s calls
        | LoopOut.exn s msg calls => failWith s job_id msg calls
        | LoopOut.done s _ sug calls =>
          match get_job s.jobs job_id with
          | Except.error msg => failWith s job_id msg calls
          | Except.ok (some fj) =>
            if fj.status = JobStatus.stopped then
              match update_job s job_id { status := some JobStatus.stopped,
                                          current_page := some fj.current_page } with
              | Except.error msg => failWith s job_id msg calls
              | Except.ok s2 => RunOut.finished s2 calls (some sug)
            else completeJob s job_id df.length sug calls
          | Except.ok none => completeJob s job_id df.length sug calls

/-- JobManager.resume_job with the worker it relaunches
(src/job_manager.py 287-306): when the stored status is PAUSED, set
RUNNING and run the worker; otherwise do nothing (the `none` outcome). -/
def resume_job (s : Sys) (job_id : String) (df : List Page)
    (analyze : Nat → Page → Except String (List Row)) : Except String (Option RunOut) :=
  match get_job s.jobs job_id with
  | Except.error e => Except.error e
  | Except.ok none => Except.ok none
  | Except.ok (some j) =>
      if j.status = JobStatus.paused then
        match update_job s job_id { status := some JobStatus.running } with
        | Except.error e => Except.error e
        | Except.ok s2 => Except.ok (some (run_job s2 job_id df analyze))
      else Except.ok none

/-- The arguments the external progress callback received during one
worker execution, in order. -/
def progressOf : RunOut → List (Nat × Nat)
  | RunOut.noJob _ => []
  | RunOut.hang _ calls => calls
  | RunOut.finished _ calls _ => calls
  | RunOut.crashed _ calls _ => calls

/-- What a poller of the stores observes about a job after a worker
execution that exited cleanly: the record's status, current_page and
error, and the job's results file. -/
def runObs (o : RunOut) (job_id : String) : Option (JobStatus × Nat × Option String × Option CsvFile) :=
  match o with
  | RunOut.finished s _ _ =>
    match s.jobs job_id with
    | some (JsonFile.valid r) => some (r.status, r.current_page, r.error, s.results job_id)
    | _ => none
  | _ => none

/-- A distinguishable sample suggestion row for page p. -/
def rowOf (p : Nat) : Row :=
  { source_url := toString p, anchor_text := "a", target_url := "t", entity_match := none }

/-- An empty config blob (max_suggestions_per_page falls back to 5). -/
def cfg0 : Config := { max_suggestions_per_page := none }

/-- A sample record for job "j". -/
def mkRec (st : JobStatus) (total cur : Nat) : JobRecord :=
  { job_id := "j", status := st, total_pages := total, current_page := cur,
    created_at := 0, updated_at := 0, config := cfg0, partial_results := [], error := none }

/-- A jobs directory holding one parseable record. -/
def jstoreOne (job_id : String) (r : JobRecord) : JobStore :=
  fun k => if k = job_id then some (JsonFile.valid r) else none

/-- A results directory holding one table file. -/
def rstoreOne (job_id : String) (rows : List Row) : ResStore :=
  fun k => if k = job_id then some (CsvFile.table rows) else none

/-- An empty results directory. -/
def rstoreNone : ResStore := fun _ => none

/-- An analysis collaborator that yields one row per page and never fails. -/
def anOk : Nat → Page → Except String (List Row) := fun _ p => Except.ok [rowOf p]

/-- An analysis collaborator that raises on page 2 and otherwise yields one
row per page. -/
def anFail2 : Nat → Page → Except String (List Row) :=
  fun _ p => if p = 2 then Except.error "boom" else Except.ok [rowOf p]

/-- A job of 5 pages, paused at current_page = 2, with the checkpoint rows
of pages 0 and 1 in its results file. -/
def sysC4 : Sys :=
  { jobs := jstoreOne "j" (mkRec JobStatus.paused 5 2),
    results := rstoreOne "j" [rowOf 0, rowOf 1], clock := 0 }

/-- A job of 10 pages, paused at current_page = 5, with the checkpoint rows
of pages 0-4 in its results file. -/
def sysC5 : Sys :=
  { jobs := jstoreOne "j" (mkRec JobStatus.paused 10 5),
    results := rstoreOne "j" ((List.range 5).map rowOf), clock := 0 }

/-- A job of 5 pages that has COMPLETED, its results file present. -/
def sysDone : Sys :=
  { jobs := jstoreOne "j" (mkRec JobStatus.completed 5 5),
    results := rstoreOne "j" [rowOf 0], clock := 0 }

/-- A fresh QUEUED job of 5 pages with no results file. -/
def sysFresh : Sys :=
  { jobs := jstoreOne "j" (mkRec JobStatus.queued 5 0),
    results := rstoreNone, clock := 0 }

/-- A job whose stored record file is corrupt (unparseable). -/
def sysCorrupt : Sys :=
  { jobs := fun k => if k = "j" then some (JsonFile.corrupt "") else none,
    results := rstoreNone, clock := 0 }

/-- A mid-run state: the record RUNNING at current_page = 2, the checkpoint
rows of pages 0 and 1 saved. -/
def sysMidRun : Sys :=
  { jobs := jstoreOne "j" (mkRec JobStatus.running 5 2),
    results := rstoreOne "j" [rowOf 0, rowOf 1], clock := 3 }

/-- A job whose record is STOPPED. -/
def sysStopped : Sys :=
  { jobs := jstoreOne "j" (mkRec JobStatus.stopped 5 3),
    results := rstoreNone, clock := 0 }

/-- A terminal COMPLETED job that still has a leftover results file, as
left behind when create_job reuses the id. -/
def sysC10 : Sys :=
  { jobs := jstoreOne "j" (mkRec JobStatus.completed 5 5),
    results := rstoreOne "j" [rowOf 0], clock := 7 }

/-- A jobs directory whose one record for "job1" is RUNNING at page 1. -/
def rec0 : JobRecord := mkRec JobStatus.running 5 1

/-- The record a writer is about to store over rec0. -/
def rec1 : JobRecord := mkRec JobStatus.running 5 2

/-- The jobs directory before the interrupted save of rec1. -/
def fs0 : JobStore := jstoreOne "job1" rec0

/-- A job whose record is RUNNING at page 1, results file absent. -/
def sysRunning : Sys :=
  { jobs := jstoreOne "j" (mkRec JobStatus.running 5 1),
    results := rstoreNone, clock := 0 }

theorem applyUpdates_status (j : JobRecord) (st : JobStatus) (now : Nat) :
    j.applyUpdates { status := some st } now = { j with status := st, updated_at := now } := rfl

/-- The system after update_progress wrote current = c for the record j
stored under job_id: the record changes in status (to RUNNING),
current_page and updated_at alone. -/
def setProgress (s : Sys) (job_id : String) (j : JobRecord) (c : Nat) : Sys :=
  { s with jobs := save_job s.jobs job_id { j with status := JobStatus.running, current_page := c, updated_at := s.clock },
           clock := s.clock + 1 }

/-- update_job called with a status-only updates dict, on a store whose
record for the id is present and parseable, changes exactly the status and
updated_at of that record. -/
theorem update_job_status (s : Sys) (job_id : String) (j : JobRecord) (st : JobStatus)
    (h : s.jobs job_id = some (JsonFile.valid j)) :
    update_job s job_id { status := some st } = Except.ok (setStatus s job_id j st) := by
  simp [update_job, get_job, h, setStatus, JobRecord.applyUpdates]

/-- C1: the claim fails on the code.  For a job whose storage file exists
but holds unparseable text (an empty file here), JobManager.get_job calls
json.load with no error handling and raises JSONDecodeError instead of
returning "not found". -/
theorem c1_get_job_raises_on_corrupt_file :
    get_job (fun k => if k = "job1" then some (JsonFile.corrupt "") else none) "job1"
      = Except.error "JSONDecodeError" := rfl

/-- C2: the claim fails on the code.  JobManager._save_job rewrites the
destination file in place — open(path, "w") truncates it, then json.dump
writes — with no temporary file and no rename, so a reader interleaved
between the truncation and the dump observes a torn state that is neither
the old record nor the new one: get_job raises on it. -/
theorem c2_in_place_save_exposes_torn_state :
    get_job fs0 "job1" = Except.ok (some rec0) ∧
    get_job (save_job_truncated fs0 "job1") "job1" = Except.error "JSONDecodeError" ∧
    get_job (save_job fs0 "job1" rec1) "job1" = Except.ok (some rec1) :=
  ⟨rfl, rfl, rfl⟩

/-- C3 counterexample: a COMPLETED record is not terminal.  Launching a
worker on it sets its status back to RUNNING (run_job's unconditional
first write), the worker runs against the job without a new job being
created, and as a side effect its completion path replaces the stored
results file with the zero-column empty file. -/
theorem c3_counterexample :
    statusOf sysDone "j" = some JobStatus.completed ∧
    (markRunning sysDone "j").map (fun s => statusOf s "j") = Except.ok (some JobStatus.running) ∧
    runObs (run_job sysDone "j" (List.range 5) anOk) "j"
      = some (JobStatus.completed, 5, none, some CsvFile.emptyFile) :=
  ⟨rfl, rfl, rfl⟩

/-- C3 amended: status transitions are not monotone.  For a record of any
current status — PAUSED, COMPLETED, FAILED or STOPPED included — launching
a worker sets the status to RUNNING, and each per-page progress write sets
status RUNNING and current_page unconditionally, so a PAUSED or STOPPED
status written between a page's status check and its progress update is
overwritten with RUNNING. -/
theorem c3_amended_unconditional_running (s : Sys) (job_id : String) (j : JobRecord)
    (c t : Nat) (h : s.jobs job_id = some (JsonFile.valid j)) :
    markRunning s job_id = Except.ok (setStatus s job_id j JobStatus.running) ∧
    update_progress s job_id c t = Except.ok (setProgress s job_id j c, c, t) := by
  constructor
  · exact update_job_status s job_id j JobStatus.running h
  · simp [update_progress, update_job, get_job, h, setProgress, JobRecord.applyUpdates]

/-- C3 amended, witnessed on a STOPPED record: the worker launch writes
RUNNING over the terminal status. -/
theorem c3_amended_witness :
    markRunning sysStopped "j"
      = Except.ok (setStatus sysStopped "j" (mkRec JobStatus.stopped 5 3) JobStatus.running) :=
  (c3_amended_unconditional_running sysStopped "j" (mkRec JobStatus.stopped 5 3) 0 0 rfl).1

/-- C4: the claim fails on the code.  A 5-page job resumed from
current_page = 2 whose result store holds the rows of pages 0 and 1 ends,
at completion, with current_page = 5 and status COMPLETED but a results
file holding only the rows of pages 2-4: the final checkpoint written at
completion saves only the resumed run's suggestions, dropping the
pre-resume rows that every mid-run checkpoint still contained, so an
observer reading current_page = 5 is not guaranteed the store reflects
pages 0..4. -/
theorem c4_completion_after_resume_drops_rows :
    (resume_job sysC4 "j" (List.range 5) anOk).map (Option.map (fun o => runObs o "j"))
      = Except.ok (some (some (JobStatus.completed, 5, none,
          some (CsvFile.table [rowOf 2, rowOf 3, rowOf 4])))) := rfl

/-- C5: the claim fails on the code.  Resuming a 10-page job from
current_page = 5 passes df.iloc[5:] to generate_link_suggestions, which
takes total_pages = len(df_to_process) = 5, so the progress callback
receives (6,5), (7,5), ..., (10,5) — the first components follow the
original index labels but the totals are the remaining count, not the
original total 10 that the claim requires. -/
theorem c5_resume_progress_reports_remaining_total :
    (resume_job sysC5 "j" (List.range 10) anOk).map (Option.map progressOf)
      = Except.ok (some [(6, 5), (7, 5), (8, 5), (9, 5), (10, 5)]) ∧
    ([(6, 5), (7, 5), (8, 5), (9, 5), (10, 5)] : List (Nat × Nat))
      ≠ [(6, 10), (7, 10), (8, 10), (9, 10), (10, 10)] :=
  ⟨rfl, by decide⟩

/-- C6 counterexample: the round trip fails for the empty row sequence.
save_partial_results of an empty DataFrame writes a zero-column CSV file,
and load_partial_results then raises EmptyDataError through pd.read_csv
instead of returning the empty sequence. -/
theorem c6_empty_roundtrip_counterexample :
    load_partial_results (save_partial_results rstoreNone "job1" []) "job1"
      = Except.error "EmptyDataError" ∧
    load_partial_results (save_partial_results rstoreNone "job1" []) "job1"
      ≠ Except.ok (some []) :=
  ⟨rfl, fun hca => nomatch hca⟩

/-- C6 amended: for every nonempty row sequence, save followed by load
returns the same sequence; save replaces the previously stored sequence
wholesale (last checkpoint wins, no merge); load on a never-saved id
returns "absent"; but saving the empty sequence produces a zero-column
file whose load raises EmptyDataError rather than returning the empty
sequence. -/
theorem c6_amended_roundtrip (rs : ResStore) (job_id : String) (rows prev : List Row)
    (h : rows ≠ []) (h0 : rs job_id = none) :
    load_partial_results (save_partial_results rs job_id rows) job_id
      = Except.ok (some rows) ∧
    load_partial_results
        (save_partial_results (save_partial_results rs job_id prev) job_id rows) job_id
      = Except.ok (some rows) ∧
    load_partial_results rs job_id = Except.ok none ∧
    load_partial_results (save_partial_results rs job_id []) job_id
      = Except.error "EmptyDataError" := by
  have ht : toCsv rows = CsvFile.table rows := by
    cases rows with
    | nil => exact absurd rfl h
    | cons a l => rfl
  refine ⟨?_, ?_, ?_, ?_⟩
  · simp [load_partial_results, save_partial_results, ht, readCsv]
  · simp [load_partial_results, save_partial_results, ht, readCsv]
  · simp [load_partial_results, h0]
  · simp [load_partial_results, save_partial_results, toCsv, readCsv]

/-- C6 amended, witnessed on a one-row sequence over an empty store. -/
theorem c6_amended_roundtrip_witness :
    load_partial_results (save_partial_results rstoreNone "job1" [rowOf 0]) "job1"
      = Except.ok (some [rowOf 0]) :=
  (c6_amended_roundtrip rstoreNone "job1" [rowOf 0] [rowOf 1]
    (List.cons_ne_nil _ _) rfl).1

/-- C7: for a record of any current status, pause is effective exactly from
RUNNING, resume exactly from PAUSED, stop exactly from RUNNING or PAUSED —
the effective cases change only status and updated_at (setStatus), and
every other combination returns the state unchanged without an error. -/
theorem c7_pause_resume_stop_matrix (s : Sys) (job_id : String) (j : JobRecord)
    (h : s.jobs job_id = some (JsonFile.valid j)) :
    pause_job s job_id = Except.ok
      (if j.status = JobStatus.running then setStatus s job_id j JobStatus.paused else s) ∧
    resume_mark s job_id = Except.ok
      (if j.status = JobStatus.paused then setStatus s job_id j JobStatus.running else s) ∧
    stop_job s job_id = Except.ok
      (if j.status = JobStatus.running ∨ j.status = JobStatus.paused
       then setStatus s job_id j JobStatus.stopped else s) := by
  refine ⟨?_, ?_, ?_⟩
  · by_cases hr : j.status = JobStatus.running
    · simp [pause_job, get_job, h, hr, update_job_status s job_id j JobStatus.paused h]
    · simp [pause_job, get_job, h, hr]
  · by_cases hp : j.status = JobStatus.paused
    · simp [resume_mark, get_job, h, hp, update_job_status s job_id j JobStatus.running h]
    · simp [resume_mark, get_job, h, hp]
  · by_cases hs : j.status = JobStatus.running ∨ j.status = JobStatus.paused
    · simp [stop_job, get_job, h, hs, update_job_status s job_id j JobStatus.stopped h]
    · simp [stop_job, get_job, h, hs]

/-- C7, witnessed on a RUNNING record: pause is effective. -/
theorem c7_matrix_witness :
    pause_job sysRunning "j" = Except.ok
      (if (mkRec JobStatus.running 5 1).status = JobStatus.running
       then setStatus sysRunning "j" (mkRec JobStatus.running 5 1) JobStatus.paused
       else sysRunning) :=
  (c7_pause_resume_stop_matrix sysRunning "j" (mkRec JobStatus.running 5 1) rfl).1

/-- C8 counterexample: when the store itself fails in a way that also
defeats the handler — here the job's record file is corrupt, so the
worker's first store read raises and the except block's own update_job
raises again — the exception escapes the worker thread, no FAILED record
is written and no error string is recorded. -/
theorem c8_counterexample :
    run_job sysCorrupt "j" (List.range 3) anOk
      = RunOut.crashed sysCorrupt [] "JSONDecodeError" := rfl

/-- C8 amended: whenever the worker's try block raises and the job record
is still readable when the handler runs, the except block turns the raise
into a clean exit: the record gets status FAILED, the error string, a
fresh updated_at and nothing else changes; the results store — hence every
checkpoint written up to the last successful page — is untouched.  The
closing conjunct evaluates a concrete worker whose analysis step raises on
page 2 of 5: it ends FAILED at current_page 2 with error "boom" and the
checkpoints of pages 0-1 still stored. -/
theorem c8_amended_failure_handling (sx : Sys) (job_id msg : String)
    (calls : List (Nat × Nat)) (j : JobRecord)
    (h : sx.jobs job_id = some (JsonFile.valid j)) :
    failWith sx job_id msg calls = RunOut.finished (setFailed sx job_id j msg) calls none ∧
    (setFailed sx job_id j msg).results = sx.results ∧
    (setFailed sx job_id j msg).jobs job_id = some (JsonFile.valid
      { j with status := JobStatus.failed, error := some msg, updated_at := sx.clock }) ∧
    runObs (run_job sysFresh "j" (List.range 5) anFail2) "j"
      = some (JobStatus.failed, 2, some "boom", some (CsvFile.table [rowOf 0, rowOf 1])) := by
  refine ⟨?_, rfl, ?_, rfl⟩
  · simp [failWith, update_job, get_job, h, setFailed, JobRecord.applyUpdates]
  · simp [setFailed, save_job]

/-- C8 amended, witnessed at a mid-run state with two checkpointed rows. -/
theorem c8_amended_witness :
    (setFailed sysMidRun "j" (mkRec JobStatus.running 5 2) "boom").results
      = sysMidRun.results :=
  (c8_amended_failure_handling sysMidRun "j" "boom" [(1, 5), (2, 5)]
    (mkRec JobStatus.running 5 2) rfl).2.1

/-- C9: delete_job removes both the record and the results entry for the
id, leaves every other id untouched and the clock unchanged, and is
idempotent — deleting again (so in particular deleting a nonexistent id)
raises nothing and changes nothing. -/
theorem c9_delete_job_removes_both_and_idempotent (s : Sys) (job_id k : String)
    (h : k ≠ job_id) :
    (delete_job s job_id).jobs job_id = none ∧
    (delete_job s job_id).results job_id = none ∧
    (delete_job s job_id).jobs k = s.jobs k ∧
    (delete_job s job_id).results k = s.results k ∧
    (delete_job s job_id).clock = s.clock ∧
    delete_job (delete_job s job_id) job_id = delete_job s job_id := by
  refine ⟨by simp [delete_job], by simp [delete_job], by simp [delete_job, h],
          by simp [delete_job, h], rfl, ?_⟩
  have hj : (fun kk => if kk = job_id then none else (delete_job s job_id).jobs kk)
      = (delete_job s job_id).jobs := by
    funext kk
    by_cases hk : kk = job_id <;> simp [delete_job, hk]
  have hr : (fun kk => if kk = job_id then none else (delete_job s job_id).results kk)
      = (delete_job s job_id).results := by
    funext kk
    by_cases hk : kk = job_id <;> simp [delete_job, hk]
  show ({ delete_job s job_id with jobs := fun kk => if kk = job_id then none else (delete_job s job_id).jobs kk, results := fun kk => if kk = job_id then none else (delete_job s job_id).results kk } : Sys) = delete_job s job_id
  rw [hj, hr]

/-- C9, witnessed on a completed job with a stored results file. -/
theorem c9_delete_witness : (delete_job sysDone "j").jobs "j" = none :=
  (c9_delete_job_removes_both_and_idempotent sysDone "j" "k" (by decide)).1

/-- C10: for an id that already has a record and a stored results table,
create_job overwrites the record with a fresh QUEUED one (current_page 0,
error none) but leaves the results entry in place, and the worker's
initialisation — the RUNNING mark followed by the all_suggestions load —
starts from the leftover rows, not from the empty sequence. -/
theorem c10_create_overwrites_record_keeps_results (s : Sys) (job_id : String)
    (n : Nat) (cfg : Config) (j0 : JobRecord) (rows : List Row)
    (h0 : s.jobs job_id = some (JsonFile.valid j0))
    (h1 : s.results job_id = some (CsvFile.table rows)) (h2 : rows ≠ []) :
    (create_job s job_id n cfg).jobs job_id
      = some (JsonFile.valid (freshRecord job_id n cfg s.clock)) ∧
    (create_job s job_id n cfg).results job_id = some (CsvFile.table rows) ∧
    (match markRunning (create_job s job_id n cfg) job_id with
     | Except.ok s1 => initAllSuggestions s1 job_id
     | Except.error e => Except.error e) = Except.ok rows := by
  refine ⟨by simp [create_job, save_job], h1, ?_⟩
  have hm : markRunning (create_job s job_id n cfg) job_id
      = Except.ok (setStatus (create_job s job_id n cfg) job_id
          (freshRecord job_id n cfg s.clock) JobStatus.running) :=
    update_job_status _ _ _ _ (by simp [create_job, save_job])
  rw [hm]
  have hres : (setStatus (create_job s job_id n cfg) job_id
      (freshRecord job_id n cfg s.clock) JobStatus.running).results job_id
      = some (CsvFile.table rows) := h1
  simp only [initAllSuggestions, load_partial_results, hres, readCsv]
  cases rows with
  | nil => exact absurd rfl h2
  | cons a l => simp

/-- C10, witnessed on a completed job with one leftover row. -/
theorem c10_create_witness :
    (match markRunning (create_job sysC10 "j" 9 cfg0) "j" with
     | Except.ok s1 => initAllSuggestions s1 "j"
     | Except.error e => Except.error e) = Except.ok [rowOf 0] :=
  (c10_create_overwrites_record_keeps_results sysC10 "j" 9 cfg0
    (mkRec JobStatus.completed 5 5) [rowOf 0] rfl rfl (List.cons_ne_nil _ _)).2.2

end JobMgr
